import Mathlib

/-!
Verification development for the BOM-Check Digikey client
(`src/api/core.py`, `src/api/digikey.py`, `src/api/exceptions.py`).

The Python code is shallowly embedded: JSON values become an inductive
`Json`, the HTTP layer becomes an oracle function from requests to
responses, exceptions become `Except`, and the mutable client object
becomes explicit state passing of a `Digikey` structure.
-/

/-- JSON values, as produced by `response.json()`. -/
inductive Json where
  | null
  | bool (b : Bool)
  | str (s : String)
  | num (n : Int)
  | arr (elems : List Json)
  | obj (fields : List (String × Json))

/-- Python `d[key]` on a JSON object: first binding wins, `none` models a
`KeyError` (or a `TypeError` on a non-object). -/
def Json.get : Json → String → Option Json
  | .obj fields, key => fields.lookup key
  | _, _ => none

/-- Python `xs[i]` on a JSON array: `none` models `IndexError` (or a
`TypeError` on a non-array). -/
def Json.idx : Json → Nat → Option Json
  | .arr elems, i => elems.get? i
  | _, _ => none

mutual
/-- Python `repr`/`str` rendering of a parsed JSON value, as interpolated
into f-strings such as the token-error message. -/
def Json.render : Json → String
  | .null => "None"
  | .bool true => "True"
  | .bool false => "False"
  | .str s => "'" ++ s ++ "'"
  | .num n => toString n
  | .arr elems => "[" ++ Json.renderElems elems ++ "]"
  | .obj fields => "\x7b" ++ Json.renderFields fields ++ "\x7d"

def Json.renderElems : List Json → String
  | [] => ""
  | [x] => Json.render x
  | x :: y :: rest => Json.render x ++ ", " ++ Json.renderElems (y :: rest)

def Json.renderFields : List (String × Json) → String
  | [] => ""
  | [(k, v)] => "'" ++ k ++ "': " ++ Json.render v
  | (k, v) :: f :: rest =>
      "'" ++ k ++ "': " ++ Json.render v ++ ", " ++ Json.renderFields (f :: rest)
end

/-- Python `str()` of a JSON value (`f"{x}"`): a string renders without
quotes, everything else as `repr`. -/
def Json.pyStr : Json → String
  | .str s => s
  | j => j.render

/-- The error taxonomy of `src/api/exceptions.py`: `PartSearchError` and its
four specializations. -/
inductive ErrorKind where
  | generic
  | rateLimit
  | connection
  | auth
  | badRequest
deriving DecidableEq

/-- A raised `PartSearchError`: its class and its message string. -/
structure ApiError where
  kind : ErrorKind
  msg : String
deriving DecidableEq

/-- Any exception escaping an embedded method: a classified
`PartSearchError`, or a raw Python `KeyError`/`IndexError` from JSON field
access. -/
inductive PyError where
  | api (e : ApiError)
  | keyError

/-- An HTTP response, already JSON-decoded. -/
structure Response where
  status_code : Nat
  body : Json

/-- Python `str.endswith` on a one-piece suffix. -/
def pyEndsWith (s suffix : String) : Bool :=
  suffix.data.isSuffixOf s.data

/-- The URL normalization performed by both `GetPost.__init__` and
`Digikey.__init__`: append a trailing slash when missing. -/
def normalizeUrl (url : String) : String :=
  if pyEndsWith url "/" then url else url ++ "/"

/-- The `Digikey` client state (`src/api/digikey.py`).  `url` is the
normalized base URL stored by `Digikey.__init__` (and identically by the
inherited `GetPost.__init__`).  Tokens hold arbitrary JSON values, as the
Python attributes do after a token exchange. -/
structure Digikey where
  url : String
  client_id : String
  client_secret : String
  auth_token : Option Json
  refresh_token : Option Json
  geo_loc : String
  lang : String
  currency : String

/-- `Digikey.__init__`: normalizes the base URL, stores credentials,
tokens and locale settings. -/
def Digikey.init (url client_id client_secret : String)
    (auth_token refresh_token : Option Json)
    (geo_loc lang currency : String) : Digikey :=
  { url := normalizeUrl url
    client_id := client_id
    client_secret := client_secret
    auth_token := auth_token
    refresh_token := refresh_token
    geo_loc := geo_loc
    lang := lang
    currency := currency }

/-- `Digikey._parse_error`: classifies a response status; `none` means the
200 success path (the method returns), `some e` means exception `e` is
raised. -/
def parse_error (response : Response) : Option ApiError :=
  if response.status_code = 200 then
    none
  else if response.status_code = 400 then
    some ⟨.badRequest, "Recieved status code 400, Bad request"⟩
  else if response.status_code = 401 then
    some ⟨.auth, "Recieved status code 401, Token is probably expired"⟩
  else if response.status_code = 403 then
    some ⟨.auth, "Recieved status code 403, Forbidden"⟩
  else if response.status_code = 404 then
    some ⟨.connection, "Recieved status code 404, Not found"⟩
  else if response.status_code = 429 then
    some ⟨.rateLimit, "Recieved status code 429, DigiKey rate limit exceeded"⟩
  else if response.status_code = 503 then
    some ⟨.connection, "Recieved status code 503, Service unavailable"⟩
  else
    some ⟨.generic, "Unknown error occured"⟩

/-- The normalized part record (`PartInfo` in `src/api/core.py`), as
populated by `lookup_by_part_numbers`.  All fields except the hardcoded
`distributer` hold raw JSON values. -/
structure PartInfo where
  name : Json
  part_number : Json
  distributer : String
  manufacturer : Json
  lead_time : Json
  quantity : Json
  unit_price : Json
  life_cycle : Json
  url : Json
  datasheet_url : Json

/-- The body-parsing section of `lookup_by_part_numbers`: maps the JSON of
one 200 response into a `PartInfo`; `none` models the `KeyError` /
`IndexError` Python raises when a field is missing. -/
def parsePartInfo (raw : Json) : Option PartInfo := do
  let name ← raw.get "ProductDescription"
  let part_number ← raw.get "DigiKeyPartNumber"
  let manufacturer ← (← raw.get "Manufacturer").get "Value"
  let lead_time ← raw.get "ManufacturerLeadWeeks"
  let quantity ← raw.get "QuantityAvailable"
  let unit_price ← (← (← raw.get "StandardPricing").idx 2).get "UnitPrice"
  let life_cycle ← raw.get "ProductStatus"
  let url ← raw.get "ProductUrl"
  let datasheet_url ← (← (← raw.get "MediaLinks").idx 0).get "Url"
  pure { name := name
         part_number := part_number
         distributer := "DigiKey"
         manufacturer := manufacturer
         lead_time := lead_time
         quantity := quantity
         unit_price := unit_price
         life_cycle := life_cycle
         url := url
         datasheet_url := datasheet_url }

/-- A GET request as issued by `GetPost.get`: effective URL (base plus
relative path), headers, query parameters. -/
structure GetRequest where
  url : String
  headers : List (String × String)
  params : List (String × String)

/-- A POST request as issued by `GetPost.post`: effective URL and form
body.  A `none` value models a Python `None` in the data dict. -/
structure PostRequest where
  url : String
  data : List (String × Option Json)

/-- The field list requested by `lookup_by_part_numbers`. -/
def fields_needed : List String :=
  ["ProductDescription", "DigiKeyPartNumber", "MediaLinks", "Manufacturer",
   "ManufacturerLeadWeeks", "QuantityAvailable", "StandardPricing",
   "ProductStatus", "ProductUrl"]

/-- The GET request `lookup_by_part_numbers` issues for one part number,
given the bearer token `tok` read from `auth_token`. -/
def Digikey.mkGetRequest (dk : Digikey) (tok : Json) (num : String) : GetRequest :=
  { url := dk.url ++ "Search/v3/Products/" ++ num
    headers := [("X-DIGIKEY-Client-Id", dk.client_id),
                ("Authorization", "Bearer " ++ tok.pyStr)]
    params := [("includes", String.intercalate "," fields_needed),
               ("X-DIGIKEY-Locale-Site", dk.geo_loc),
               ("X-DIGIKEY-Locale-Language", dk.lang),
               ("X-DIGIKEY-Locale-Currency", dk.currency)] }

/-- The outcome of one `lookup_by_part_numbers` call: the returned list or
the raised exception, the GET requests actually issued (in order), and the
client state after the call. -/
structure LookupResult where
  result : Except PyError (List PartInfo)
  requests : List GetRequest
  client : Digikey

/-- The per-part loop of `lookup_by_part_numbers`: issue the GET, classify
the status, parse the body, recurse; an exception aborts the loop and
discards all accumulated `PartInfo`s. -/
def Digikey.lookupLoop (dk : Digikey) (net : GetRequest → Response) (tok : Json) :
    List String → Except PyError (List PartInfo) × List GetRequest
  | [] => (.ok [], [])
  | num :: rest =>
    let req := dk.mkGetRequest tok num
    let response := net req
    match parse_error response with
    | some e => (.error (.api e), [req])
    | none =>
      match parsePartInfo response.body with
      | none => (.error .keyError, [req])
      | some info =>
        let r := dk.lookupLoop net tok rest
        (match r.1 with
         | .ok infos => .ok (info :: infos)
         | .error e => .error e,
         req :: r.2)

/-- `Digikey.lookup_by_part_numbers`: checks the auth token, then runs the
per-part loop.  `net` is the network oracle standing for `requests.get`. -/
def Digikey.lookup_by_part_numbers (dk : Digikey) (net : GetRequest → Response)
    (part_numbers : List String) : LookupResult :=
  match dk.auth_token with
  | none =>
    { result := .error (.api ⟨.auth, "Auth token is None, please get auth token first"⟩)
      requests := []
      client := dk }
  | some tok =>
    let r := dk.lookupLoop net tok part_numbers
    { result := r.1, requests := r.2, client := dk }

/-- The POST request issued by `Digikey.get_auth_token`. -/
def Digikey.authTokenRequest (dk : Digikey) (code redirect_uri : String) : PostRequest :=
  { url := dk.url ++ "v1/oauth2/token"
    data := [("grant_type", some (.str "authorization_code")),
             ("code", some (.str code)),
             ("client_id", some (.str dk.client_id)),
             ("client_secret", some (.str dk.client_secret)),
             ("redirect_uri", some (.str redirect_uri))] }

/-- The POST request issued by `Digikey.get_refresh_token`; the stored
refresh token (possibly `None`) goes into the form body. -/
def Digikey.refreshTokenRequest (dk : Digikey) : PostRequest :=
  { url := dk.url ++ "v1/oauth2/token"
    data := [("client_id", some (.str dk.client_id)),
             ("client_secret", some (.str dk.client_secret)),
             ("grant_type", some (.str "refresh_token")),
             ("refresh_token", dk.refresh_token)] }

/-- The error message of a failed token operation:
`f"Error in getting auth token, Response: {status}, {body}"`. -/
def tokenErrorMsg (response : Response) : String :=
  "Error in getting auth token, Response: " ++ toString response.status_code
    ++ ", " ++ response.body.pyStr

/-- Shared 200-branch of both token operations: store `access_token` then
`refresh_token` from the body (each read may raise `KeyError`, after which
earlier assignments persist), and return the pair. -/
def Digikey.storeTokens (dk : Digikey) (response : Response) :
    Except PyError (Json × Json) × Digikey :=
  match response.body.get "access_token" with
  | none => (.error .keyError, dk)
  | some a =>
    let dk := { dk with auth_token := some a }
    match response.body.get "refresh_token" with
    | none => (.error .keyError, dk)
    | some r =>
      let dk := { dk with refresh_token := some r }
      (.ok (a, r), dk)

/-- `Digikey.get_auth_token`: exchange a one-time code for a token pair.
Returns the Python return value (or raised exception) and the client state
after the call. -/
def Digikey.get_auth_token (dk : Digikey) (net : PostRequest → Response)
    (code redirect_uri : String) : Except PyError (Json × Json) × Digikey :=
  let response := net (dk.authTokenRequest code redirect_uri)
  if response.status_code = 200 then
    dk.storeTokens response
  else
    (.error (.api ⟨.auth, tokenErrorMsg response⟩), dk)

/-- `Digikey.get_refresh_token`: obtain a fresh token pair from the stored
refresh token.  Same shape as `get_auth_token`. -/
def Digikey.get_refresh_token (dk : Digikey) (net : PostRequest → Response) :
    Except PyError (Json × Json) × Digikey :=
  let response := net dk.refreshTokenRequest
  if response.status_code = 200 then
    dk.storeTokens response
  else
    (.error (.api ⟨.auth, tokenErrorMsg response⟩), dk)

/-- `Digikey.setup_helper_cmd`'s authorization URL (the string printed for
the user). -/
def Digikey.setup_helper_cmd_url (dk : Digikey) (redirect_uri : String) : String :=
  dk.url ++ "v1/oauth2/authorize?response_type=code&client_id=" ++ dk.client_id
    ++ "&redirect_uri=" ++ redirect_uri

/-- `Digikey.setup_helper_browser`'s authorization URL (the string opened
in the browser); note the extra slash after `self.url`. -/
def Digikey.setup_helper_browser_url (dk : Digikey) (redirect_uri : String) : String :=
  dk.url ++ "/v1/oauth2/authorize?response_type=code&client_id=" ++ dk.client_id
    ++ "&redirect_uri=" ++ redirect_uri

/-! ## Shared helper definitions and lemmas -/

/-- `s` occurs verbatim inside `msg`. -/
def mentions (msg s : String) : Prop := ∃ a b : String, msg = a ++ s ++ b

/-- Modelled from the spec: the status-classification table of §4.2
(which error kind each HTTP status is assigned; `none` for 200). -/
def specStatusKind (status : Nat) : Option ErrorKind :=
  if status = 200 then none
  else if status = 400 then some .badRequest
  else if status = 401 ∨ status = 403 then some .auth
  else if status = 404 ∨ status = 503 then some .connection
  else if status = 429 then some .rateLimit
  else some .generic

/-- A concrete 200-response body carrying every field the parser reads. -/
def fixtureBody : Json :=
  .obj [("ProductDescription", .str "CAP CER 2.2PF 50V C0G 0402"),
        ("DigiKeyPartNumber", .str "490-1281-1-ND"),
        ("MediaLinks", .arr [.obj [("Url", .str "https://ds.example/c.pdf")]]),
        ("Manufacturer", .obj [("Value", .str "Murata")]),
        ("ManufacturerLeadWeeks", .str "12"),
        ("QuantityAvailable", .num 40000),
        ("StandardPricing",
          .arr [.obj [("BreakQuantity", .num 1), ("UnitPrice", .num 10)],
                .obj [("BreakQuantity", .num 10), ("UnitPrice", .num 9)],
                .obj [("BreakQuantity", .num 100), ("UnitPrice", .num 8)]]),
        ("ProductStatus", .str "Active"),
        ("ProductUrl", .str "https://www.digikey.com/p")]

/-- The `PartInfo` the parser produces from `fixtureBody`. -/
def fixtureInfo : PartInfo :=
  { name := .str "CAP CER 2.2PF 50V C0G 0402"
    part_number := .str "490-1281-1-ND"
    distributer := "DigiKey"
    manufacturer := .str "Murata"
    lead_time := .str "12"
    quantity := .num 40000
    unit_price := .num 8
    life_cycle := .str "Active"
    url := .str "https://www.digikey.com/p"
    datasheet_url := .str "https://ds.example/c.pdf" }

/-- A client with a token in place, used by concrete witnesses. -/
def dkW : Digikey :=
  Digikey.init "https://x" "cid" "sec" (some (.str "tok")) (some (.str "ref")) "US" "en" "USD"

/-- A network oracle answering 404 for part `B` and the 200 fixture for
everything else. -/
def netAB : GetRequest → Response :=
  fun req =>
    if req.url = "https://x/Search/v3/Products/B" then ⟨404, Json.null⟩
    else ⟨200, fixtureBody⟩

/-- A network oracle answering every POST with a 200 token body. -/
def netToken200 : PostRequest → Response :=
  fun _ => ⟨200, .obj [("access_token", .str "newA"), ("refresh_token", .str "newR")]⟩

/-- A network oracle refusing every POST with a 401. -/
def netToken401 : PostRequest → Response :=
  fun _ => ⟨401, .obj [("ErrorMessage", .str "expired")]⟩

theorem string_data_append (a b : String) : (a ++ b).data = a.data ++ b.data := rfl

theorem mentions_char_mem {msg s : String} (h : mentions msg s) :
    ∀ c ∈ s.data, c ∈ msg.data := by
  obtain ⟨a, b, rfl⟩ := h
  intro c hc
  simp only [string_data_append, List.mem_append]
  exact Or.inl (Or.inr hc)

theorem parse_error_eq_none_iff (resp : Response) :
    parse_error resp = none ↔ resp.status_code = 200 := by
  unfold parse_error
  split_ifs <;> simp_all

theorem lookupLoop_ok_status (dk : Digikey) (net : GetRequest → Response) (tok : Json) :
    ∀ (nums : List String) (infos : List PartInfo) (reqs : List GetRequest),
      dk.lookupLoop net tok nums = (.ok infos, reqs) →
      ∀ num ∈ nums, (net (dk.mkGetRequest tok num)).status_code = 200 := by
  intro nums
  induction nums with
  | nil => intro _ _ _ num hmem; cases hmem
  | cons head tail ih =>
    intro infos reqs hloop num hmem
    rw [Digikey.lookupLoop] at hloop
    rcases hpe : parse_error (net (dk.mkGetRequest tok head)) with _ | e
    · rcases hpp : parsePartInfo (net (dk.mkGetRequest tok head)).body with _ | info
      · simp [hpe, hpp] at hloop
      · simp only [hpe, hpp] at hloop
        rcases hrest : (dk.lookupLoop net tok tail).1 with e2 | infos2
        · simp [hrest] at hloop
        · rcases List.mem_cons.mp hmem with rfl | hmem
          · exact (parse_error_eq_none_iff _).mp hpe
          · have : dk.lookupLoop net tok tail =
                ((dk.lookupLoop net tok tail).1, (dk.lookupLoop net tok tail).2) := rfl
            exact ih infos2 (dk.lookupLoop net tok tail).2 (by rw [this, hrest]) num hmem
    · simp [hpe] at hloop

/-! ## Claim theorems -/

/-- C1: every status received during `lookup_by_part_numbers` is classified
exactly as the spec's table says — 200 raises nothing, 400 the bad-request
error, 401/403 the auth error, 404/503 the connection error, 429 the
rate-limit error, anything else the generic error — and on any non-200
response the lookup call raises that error instead of returning a
`PartInfo` list. -/
theorem lookup_status_classification (resp : Response) :
    (parse_error resp).map ApiError.kind = specStatusKind resp.status_code ∧
    (resp.status_code ≠ 200 →
      ∀ (dk : Digikey) (tok : Json) (net : GetRequest → Response) (num : String),
        dk.auth_token = some tok →
        net (dk.mkGetRequest tok num) = resp →
        ∃ e, parse_error resp = some e ∧
          (dk.lookup_by_part_numbers net [num]).result = .error (.api e)) := by
  constructor
  · unfold parse_error specStatusKind
    split_ifs <;> simp_all
  · intro hne dk tok net num htok hnet
    obtain ⟨e, he⟩ : ∃ e, parse_error resp = some e := by
      rcases h : parse_error resp with _ | e
      · exact absurd ((parse_error_eq_none_iff resp).mp h) hne
      · exact ⟨e, rfl⟩
    refine ⟨e, he, ?_⟩
    simp [Digikey.lookup_by_part_numbers, htok, Digikey.lookupLoop, hnet, he]

theorem lookup_status_classification_witness :
    ∃ e, parse_error ⟨404, Json.null⟩ = some e ∧
      ((Digikey.init "https://x" "cid" "sec" (some (.str "t")) none "US" "en" "USD").lookup_by_part_numbers
        (fun _ => ⟨404, Json.null⟩) ["A"]).result = .error (.api e) :=
  (lookup_status_classification ⟨404, Json.null⟩).2 (by decide) _ (Json.str "t") _ "A" rfl rfl

/-- C2: with `auth_token = None`, `lookup_by_part_numbers` raises the
auth-class error immediately; no GET request is issued and the client is
untouched. -/
theorem lookup_requires_auth_token (dk : Digikey) (net : GetRequest → Response)
    (part_numbers : List String) (h : dk.auth_token = none) :
    dk.lookup_by_part_numbers net part_numbers =
      { result := .error (.api ⟨.auth, "Auth token is None, please get auth token first"⟩)
        requests := []
        client := dk } := by
  simp [Digikey.lookup_by_part_numbers, h]

theorem lookup_requires_auth_token_witness :
    (Digikey.init "https://x" "cid" "sec" none none "US" "en" "USD").lookup_by_part_numbers
      (fun _ => ⟨200, Json.null⟩) ["GRM1555C1H2R2BA01D"] =
      { result := .error (.api ⟨.auth, "Auth token is None, please get auth token first"⟩)
        requests := []
        client := Digikey.init "https://x" "cid" "sec" none none "US" "en" "USD" } :=
  lookup_requires_auth_token _ _ _ rfl

/-- C3: `lookup_by_part_numbers` is atomic per call — if the response for
any element of the input is a non-200 status, the call raises and no
(partial) `PartInfo` list is returned. -/
theorem lookup_atomic_no_partial (dk : Digikey) (net : GetRequest → Response)
    (nums : List String) (num : String) (tok : Json)
    (htok : dk.auth_token = some tok) (hmem : num ∈ nums)
    (hbad : (net (dk.mkGetRequest tok num)).status_code ≠ 200) :
    ∀ infos, (dk.lookup_by_part_numbers net nums).result ≠ .ok infos := by
  intro infos hok
  apply hbad
  refine lookupLoop_ok_status dk net tok nums infos (dk.lookupLoop net tok nums).2 ?_ num hmem
  have hres : (dk.lookupLoop net tok nums).1 = .ok infos := by
    simpa [Digikey.lookup_by_part_numbers, htok] using hok
  calc dk.lookupLoop net tok nums
      = ((dk.lookupLoop net tok nums).1, (dk.lookupLoop net tok nums).2) := rfl
    _ = (.ok infos, (dk.lookupLoop net tok nums).2) := by rw [hres]

theorem lookup_atomic_no_partial_witness :
    (dkW.lookup_by_part_numbers netAB ["A", "B"]).result ≠ .ok [] :=
  lookup_atomic_no_partial dkW netAB ["A", "B"] "B" (.str "tok")
    rfl (by simp) (by decide) []

theorem lookupLoop_all_ok (dk : Digikey) (net : GetRequest → Response) (tok : Json) :
    ∀ (nums : List String) (f : String → PartInfo),
      (∀ num ∈ nums, (net (dk.mkGetRequest tok num)).status_code = 200) →
      (∀ num ∈ nums, parsePartInfo (net (dk.mkGetRequest tok num)).body = some (f num)) →
      (dk.lookupLoop net tok nums).1 = .ok (nums.map f) := by
  intro nums
  induction nums with
  | nil => intro f _ _; rfl
  | cons head tail ih =>
    intro f h200 hparse
    have hpe : parse_error (net (dk.mkGetRequest tok head)) = none :=
      (parse_error_eq_none_iff _).mpr (h200 head (by simp))
    have hpp : parsePartInfo (net (dk.mkGetRequest tok head)).body = some (f head) :=
      hparse head (by simp)
    have htail : (dk.lookupLoop net tok tail).1 = .ok (tail.map f) :=
      ih f (fun num hm => h200 num (by simp [hm])) (fun num hm => hparse num (by simp [hm]))
    rw [Digikey.lookupLoop]
    simp [hpe, hpp, htail]

/-- C4: on 200 responses whose JSON carries the expected fields, the lookup
returns one `PartInfo` per input part number, in input order, with
`name = ProductDescription`, `part_number = DigiKeyPartNumber`,
`distributer = "DigiKey"`, `manufacturer = Manufacturer.Value`,
`lead_time = ManufacturerLeadWeeks`, `quantity = QuantityAvailable`,
`unit_price = StandardPricing[2].UnitPrice`, `life_cycle = ProductStatus`,
`url = ProductUrl`, `datasheet_url = MediaLinks[0].Url`. -/
theorem lookup_field_mapping :
    (∀ (raw m pricing tier2 media m0 name pn manu lead qty price status purl ds : Json),
      raw.get "ProductDescription" = some name →
      raw.get "DigiKeyPartNumber" = some pn →
      raw.get "Manufacturer" = some m →
      m.get "Value" = some manu →
      raw.get "ManufacturerLeadWeeks" = some lead →
      raw.get "QuantityAvailable" = some qty →
      raw.get "StandardPricing" = some pricing →
      pricing.idx 2 = some tier2 →
      tier2.get "UnitPrice" = some price →
      raw.get "ProductStatus" = some status →
      raw.get "ProductUrl" = some purl →
      raw.get "MediaLinks" = some media →
      media.idx 0 = some m0 →
      m0.get "Url" = some ds →
      parsePartInfo raw = some ⟨name, pn, "DigiKey", manu, lead, qty, price, status, purl, ds⟩) ∧
    (∀ (dk : Digikey) (tok : Json) (net : GetRequest → Response) (nums : List String)
        (f : String → PartInfo),
      dk.auth_token = some tok →
      (∀ num ∈ nums, (net (dk.mkGetRequest tok num)).status_code = 200) →
      (∀ num ∈ nums, parsePartInfo (net (dk.mkGetRequest tok num)).body = some (f num)) →
      (dk.lookup_by_part_numbers net nums).result = .ok (nums.map f)) := by
  constructor
  · intro raw m pricing tier2 media m0 name pn manu lead qty price status purl ds
    intro h1 h2 h3 h4 h5 h6 h7 h8 h9 h10 h11 h12 h13 h14
    simp [parsePartInfo, h1, h2, h3, h4, h5, h6, h7, h8, h9, h10, h11, h12, h13, h14]
  · intro dk tok net nums f htok h200 hparse
    have := lookupLoop_all_ok dk net tok nums f h200 hparse
    simp [Digikey.lookup_by_part_numbers, htok, this]

theorem lookup_field_mapping_witness :
    parsePartInfo fixtureBody = some fixtureInfo ∧
    (dkW.lookup_by_part_numbers (fun _ => ⟨200, fixtureBody⟩) ["A"]).result =
      .ok [fixtureInfo] := by
  constructor
  · exact lookup_field_mapping.1 fixtureBody _ _ _ _ _ _ _ _ _ _ _ _ _ _
      rfl rfl rfl rfl rfl rfl rfl rfl rfl rfl rfl rfl rfl rfl
  · have := lookup_field_mapping.2 dkW (.str "tok") (fun _ => ⟨200, fixtureBody⟩)
      ["A"] (fun _ => fixtureInfo) rfl
      (fun num _ => rfl) (fun num _ => rfl)
    simpa using this

theorem lookupLoop_requests_shape (dk : Digikey) (net : GetRequest → Response) (tok : Json) :
    ∀ nums : List String,
      ∃ k, (dk.lookupLoop net tok nums).2 = (nums.take k).map (dk.mkGetRequest tok) := by
  intro nums
  induction nums with
  | nil => exact ⟨0, rfl⟩
  | cons head tail ih =>
    rw [Digikey.lookupLoop]
    rcases hpe : parse_error (net (dk.mkGetRequest tok head)) with _ | e
    · rcases hpp : parsePartInfo (net (dk.mkGetRequest tok head)).body with _ | info
      · exact ⟨1, by simp [hpe, hpp]⟩
      · obtain ⟨k, hk⟩ := ih
        exact ⟨k + 1, by simp [hpe, hpp, hk]⟩
    · exact ⟨1, by simp [hpe]⟩

/-- C7: `lookup_by_part_numbers` never mutates the client — in particular
the stored `auth_token` and `refresh_token` after the call equal those
before it, whether it returns or raises — and it performs no in-method
retry or token refresh: the GET requests issued are exactly one per
processed part number, a prefix of the input, in order, and no token
request is ever issued. -/
theorem lookup_preserves_client_no_retry (dk : Digikey) (net : GetRequest → Response)
    (nums : List String) :
    (dk.lookup_by_part_numbers net nums).client = dk ∧
    (dk.lookup_by_part_numbers net nums).client.auth_token = dk.auth_token ∧
    (dk.lookup_by_part_numbers net nums).client.refresh_token = dk.refresh_token ∧
    (∀ tok, dk.auth_token = some tok →
      ∃ k, (dk.lookup_by_part_numbers net nums).requests =
        (nums.take k).map (dk.mkGetRequest tok)) := by
  have hclient : (dk.lookup_by_part_numbers net nums).client = dk := by
    unfold Digikey.lookup_by_part_numbers
    rcases dk.auth_token with _ | tok <;> rfl
  refine ⟨hclient, by rw [hclient], by rw [hclient], ?_⟩
  intro tok htok
  obtain ⟨k, hk⟩ := lookupLoop_requests_shape dk net tok nums
  exact ⟨k, by simp [Digikey.lookup_by_part_numbers, htok, hk]⟩

theorem lookup_preserves_client_no_retry_witness :
    ∃ k, (dkW.lookup_by_part_numbers netAB ["A", "B"]).requests =
      (["A", "B"].take k).map (dkW.mkGetRequest (.str "tok")) :=
  (lookup_preserves_client_no_retry dkW netAB ["A", "B"]).2.2.2 (.str "tok") rfl

theorem tokenErrorMsg_mentions (resp : Response) :
    mentions (tokenErrorMsg resp) (toString resp.status_code) ∧
    mentions (tokenErrorMsg resp) resp.body.pyStr := by
  constructor
  · exact ⟨"Error in getting auth token, Response: ", ", " ++ resp.body.pyStr, by
      simp [tokenErrorMsg, String.append_assoc]⟩
  · exact ⟨"Error in getting auth token, Response: " ++ toString resp.status_code ++ ", ", "", by
      simp [tokenErrorMsg, String.append_assoc]⟩

/-- C5: both token operations, on a 200 response carrying `access_token`
and `refresh_token`, store exactly those values as the client's
`auth_token`/`refresh_token` and return them as a pair; on any non-200
response they raise the auth-class error whose message carries the status
code and the response body. -/
theorem token_ops_store_and_return (dk : Digikey) (net : PostRequest → Response) :
    (∀ code uri a r,
      (net (dk.authTokenRequest code uri)).status_code = 200 →
      (net (dk.authTokenRequest code uri)).body.get "access_token" = some a →
      (net (dk.authTokenRequest code uri)).body.get "refresh_token" = some r →
      dk.get_auth_token net code uri =
        (.ok (a, r), { dk with auth_token := some a, refresh_token := some r })) ∧
    (∀ code uri,
      (net (dk.authTokenRequest code uri)).status_code ≠ 200 →
      (dk.get_auth_token net code uri).1 =
        .error (.api ⟨.auth, tokenErrorMsg (net (dk.authTokenRequest code uri))⟩) ∧
      mentions (tokenErrorMsg (net (dk.authTokenRequest code uri)))
        (toString (net (dk.authTokenRequest code uri)).status_code) ∧
      mentions (tokenErrorMsg (net (dk.authTokenRequest code uri)))
        ((net (dk.authTokenRequest code uri)).body.pyStr)) ∧
    (∀ a r,
      (net dk.refreshTokenRequest).status_code = 200 →
      (net dk.refreshTokenRequest).body.get "access_token" = some a →
      (net dk.refreshTokenRequest).body.get "refresh_token" = some r →
      dk.get_refresh_token net =
        (.ok (a, r), { dk with auth_token := some a, refresh_token := some r })) ∧
    ((net dk.refreshTokenRequest).status_code ≠ 200 →
      (dk.get_refresh_token net).1 =
        .error (.api ⟨.auth, tokenErrorMsg (net dk.refreshTokenRequest)⟩) ∧
      mentions (tokenErrorMsg (net dk.refreshTokenRequest))
        (toString (net dk.refreshTokenRequest).status_code) ∧
      mentions (tokenErrorMsg (net dk.refreshTokenRequest))
        ((net dk.refreshTokenRequest).body.pyStr)) := by
  refine ⟨?_, ?_, ?_, ?_⟩
  · intro code uri a r h200 ha hr
    simp [Digikey.get_auth_token, h200, Digikey.storeTokens, ha, hr]
  · intro code uri hne
    exact ⟨by simp [Digikey.get_auth_token, hne], tokenErrorMsg_mentions _⟩
  · intro a r h200 ha hr
    simp [Digikey.get_refresh_token, h200, Digikey.storeTokens, ha, hr]
  · intro hne
    exact ⟨by simp [Digikey.get_refresh_token, hne], tokenErrorMsg_mentions _⟩

theorem token_ops_store_and_return_witness :
    dkW.get_auth_token netToken200 "onecode" "https://localhost" =
      (.ok (.str "newA", .str "newR"),
       { dkW with auth_token := some (.str "newA"), refresh_token := some (.str "newR") }) ∧
    dkW.get_refresh_token netToken200 =
      (.ok (.str "newA", .str "newR"),
       { dkW with auth_token := some (.str "newA"), refresh_token := some (.str "newR") }) :=
  ⟨(token_ops_store_and_return dkW netToken200).1 "onecode" "https://localhost"
      (.str "newA") (.str "newR") rfl rfl rfl,
   (token_ops_store_and_return dkW netToken200).2.2.1
      (.str "newA") (.str "newR") rfl rfl rfl⟩

/-- C10: a failed token exchange or refresh (any non-200 response) leaves
the client's stored `auth_token` and `refresh_token` exactly as they were;
tokens are only assigned in the 200 branch. -/
theorem token_ops_atomic_on_error (dk : Digikey) (net : PostRequest → Response) :
    (∀ code uri,
      (net (dk.authTokenRequest code uri)).status_code ≠ 200 →
      (dk.get_auth_token net code uri).2 = dk) ∧
    ((net dk.refreshTokenRequest).status_code ≠ 200 →
      (dk.get_refresh_token net).2 = dk) := by
  constructor
  · intro code uri hne
    simp [Digikey.get_auth_token, hne]
  · intro hne
    simp [Digikey.get_refresh_token, hne]

theorem token_ops_atomic_on_error_witness :
    (dkW.get_auth_token netToken401 "onecode" "https://localhost").2 = dkW ∧
    (dkW.get_refresh_token netToken401).2 = dkW :=
  ⟨(token_ops_atomic_on_error dkW netToken401).1 "onecode" "https://localhost" (by decide),
   (token_ops_atomic_on_error dkW netToken401).2 (by decide)⟩

/-- C6 counterexample: a status-500 lookup response with body `"zq"` is
classified as the generic error with message `"Unknown error occured"`,
which carries neither the response body nor even the status code — so not
every API-classified error carries status and body in its message. -/
theorem classified_error_counterexample :
    parse_error ⟨500, .str "zq"⟩ = some ⟨.generic, "Unknown error occured"⟩ ∧
    ¬ mentions "Unknown error occured" (Json.pyStr (.str "zq")) ∧
    ¬ mentions "Unknown error occured" (toString (500 : Nat)) := by
  refine ⟨rfl, ?_, ?_⟩
  · intro h
    have := mentions_char_mem h 'z' (by decide)
    revert this; decide
  · intro h
    have := mentions_char_mem h '5' (by decide)
    revert this; decide

/-- C6 amended: token-operation errors do carry the offending status code
and response body in their message; the lookup classification errors have
fixed messages independent of the response body, carrying the status code
only for the six recognized statuses (400, 401, 403, 404, 429, 503) and
nothing for unknown statuses. -/
theorem classified_error_messages (resp : Response) :
    (∀ resp2 : Response, resp2.status_code = resp.status_code →
      (parse_error resp2).map ApiError.msg = (parse_error resp).map ApiError.msg) ∧
    (resp.status_code ∈ ([400, 401, 403, 404, 429, 503] : List Nat) →
      ∃ e, parse_error resp = some e ∧ mentions e.msg (toString resp.status_code)) ∧
    (∀ (dk : Digikey) (net : PostRequest → Response) (code uri : String),
      (net (dk.authTokenRequest code uri)).status_code ≠ 200 →
      ∃ m, (dk.get_auth_token net code uri).1 = .error (.api ⟨.auth, m⟩) ∧
        mentions m (toString (net (dk.authTokenRequest code uri)).status_code) ∧
        mentions m ((net (dk.authTokenRequest code uri)).body.pyStr)) ∧
    (∀ (dk : Digikey) (net : PostRequest → Response),
      (net dk.refreshTokenRequest).status_code ≠ 200 →
      ∃ m, (dk.get_refresh_token net).1 = .error (.api ⟨.auth, m⟩) ∧
        mentions m (toString (net dk.refreshTokenRequest).status_code) ∧
        mentions m ((net dk.refreshTokenRequest).body.pyStr)) := by
  refine ⟨?_, ?_, ?_, ?_⟩
  · intro resp2 h
    simp [parse_error, h]
  · intro hmem
    simp only [List.mem_cons, List.not_mem_nil, or_false] at hmem
    rcases hmem with h | h | h | h | h | h
    · exact ⟨⟨.badRequest, "Recieved status code 400, Bad request"⟩,
        by simp [parse_error, h],
        "Recieved status code ", ", Bad request", by rw [h]; decide⟩
    · exact ⟨⟨.auth, "Recieved status code 401, Token is probably expired"⟩,
        by simp [parse_error, h],
        "Recieved status code ", ", Token is probably expired", by rw [h]; decide⟩
    · exact ⟨⟨.auth, "Recieved status code 403, Forbidden"⟩,
        by simp [parse_error, h],
        "Recieved status code ", ", Forbidden", by rw [h]; decide⟩
    · exact ⟨⟨.connection, "Recieved status code 404, Not found"⟩,
        by simp [parse_error, h],
        "Recieved status code ", ", Not found", by rw [h]; decide⟩
    · exact ⟨⟨.rateLimit, "Recieved status code 429, DigiKey rate limit exceeded"⟩,
        by simp [parse_error, h],
        "Recieved status code ", ", DigiKey rate limit exceeded", by rw [h]; decide⟩
    · exact ⟨⟨.connection, "Recieved status code 503, Service unavailable"⟩,
        by simp [parse_error, h],
        "Recieved status code ", ", Service unavailable", by rw [h]; decide⟩
  · intro dk net code uri hne
    exact ⟨tokenErrorMsg (net (dk.authTokenRequest code uri)),
      by simp [Digikey.get_auth_token, hne], tokenErrorMsg_mentions _⟩
  · intro dk net hne
    exact ⟨tokenErrorMsg (net dk.refreshTokenRequest),
      by simp [Digikey.get_refresh_token, hne], tokenErrorMsg_mentions _⟩

theorem classified_error_messages_witness :
    (∃ e, parse_error ⟨400, Json.null⟩ = some e ∧
       mentions e.msg (toString (Response.mk 400 Json.null).status_code)) ∧
    (∃ m, (dkW.get_auth_token netToken401 "c" "u").1 = .error (.api ⟨.auth, m⟩) ∧
       mentions m (toString (netToken401 (dkW.authTokenRequest "c" "u")).status_code) ∧
       mentions m ((netToken401 (dkW.authTokenRequest "c" "u")).body.pyStr)) :=
  ⟨(classified_error_messages ⟨400, Json.null⟩).2.1 (by decide),
   (classified_error_messages ⟨400, Json.null⟩).2.2.1 dkW netToken401 "c" "u" (by decide)⟩

theorem pyEndsWith_append_slash (u : String) : pyEndsWith (u ++ "/") "/" = true := by
  have hdata : (u ++ "/").data = u.data ++ ['/'] := rfl
  simp [pyEndsWith, hdata, List.isSuffixOf, List.isPrefixOf]

/-- C8: a client built from a base URL lacking the trailing slash equals
the client built from the slash-terminated URL, so every effective request
URL (base concatenated with a relative path) is identical for the two. -/
theorem base_url_normalization (u cid cs : String) (tokA tokR : Option Json)
    (g l c : String) (h : pyEndsWith u "/" = false) :
    Digikey.init u cid cs tokA tokR g l c = Digikey.init (u ++ "/") cid cs tokA tokR g l c ∧
    ∀ ext : String,
      (Digikey.init u cid cs tokA tokR g l c).url ++ ext =
        (Digikey.init (u ++ "/") cid cs tokA tokR g l c).url ++ ext := by
  have h1 : normalizeUrl u = u ++ "/" := by simp [normalizeUrl, h]
  have h2 : normalizeUrl (u ++ "/") = u ++ "/" := by
    simp [normalizeUrl, pyEndsWith_append_slash]
  constructor
  · simp [Digikey.init, h1, h2]
  · intro ext
    simp [Digikey.init, h1, h2]

theorem base_url_normalization_witness :
    Digikey.init "https://x" "cid" "sec" none none "US" "en" "USD" =
      Digikey.init ("https://x" ++ "/") "cid" "sec" none none "US" "en" "USD" :=
  (base_url_normalization "https://x" "cid" "sec" none none "US" "en" "USD" (by decide)).1

/-- C9 counterexample: the command-line and browser authorization-URL
builders do not build the same URL — the browser variant inserts an extra
slash after the (already slash-terminated) base URL. -/
theorem authorization_url_variants_counterexample :
    (Digikey.init "https://x" "cid" "sec" none none "US" "en" "USD").setup_helper_cmd_url
        "https://localhost" ≠
      (Digikey.init "https://x" "cid" "sec" none none "US" "en" "USD").setup_helper_browser_url
        "https://localhost" := by
  decide

/-- C9 amended: each authorization-URL builder is a deterministic function
of base URL, client id and redirect URI, and embeds the supplied
`client_id` and `redirect_uri` verbatim (no URL-encoding is applied); the
browser variant builds the same URL except for an extra `/` after the base
URL, so the two variants differ. -/
theorem authorization_url_builder (dk : Digikey) (uri : String) :
    dk.setup_helper_cmd_url uri =
      dk.url ++ "v1/oauth2/authorize?response_type=code&client_id=" ++ dk.client_id
        ++ "&redirect_uri=" ++ uri ∧
    dk.setup_helper_browser_url uri =
      dk.url ++ "/v1/oauth2/authorize?response_type=code&client_id=" ++ dk.client_id
        ++ "&redirect_uri=" ++ uri ∧
    (∃ a b, dk.setup_helper_cmd_url uri = a ++ dk.client_id ++ b ++ uri) ∧
    (∃ a b, dk.setup_helper_browser_url uri = a ++ dk.client_id ++ b ++ uri) :=
  ⟨rfl, rfl,
   ⟨dk.url ++ "v1/oauth2/authorize?response_type=code&client_id=", "&redirect_uri=", rfl⟩,
   ⟨dk.url ++ "/v1/oauth2/authorize?response_type=code&client_id=", "&redirect_uri=", rfl⟩⟩
